import Mathlib

/-!
# The OVS network plugin of openshift-sdn (`plugins/osdn/ovs/plugin.go`)

A shallow embedding of the plugin's orchestration code: VNID resolution,
bandwidth-annotation validation, the per-pod operations (`SetUpPod`,
`TearDownPod`, `UpdatePod`) and the master/node start-up sequences.

Conventions of the embedding

* A Go result `(T, error)` is a pair whose last component is an
  `Option GoError` (`none` is Go's `nil` error); the value component is kept
  because the code returns meaningful values next to an error (`-1`, `""`).
* The embedded `osdn.OvsController`, the pod registry behind it and the
  external agent executable are declared outside this file's source.  Their
  state is an abstract type `σ`; the methods the plugin calls on them are the
  fields of `Controller σ`, arbitrary functions of that state.
* Every interaction of the plugin with a collaborator is recorded, in program
  order, as a `Call`; an operation returns the calls it made.
* `glog` statements only write to the log and are left out.
-/

namespace ovs

/-! ## Go values -/

/-- A Go `error`, identified by its message. -/
structure GoError where
  msg : String
deriving DecidableEq, Repr

/-- The Go function `strconv.FormatUint(i, base)`: the digits of `i` in the
base, most significant first (the plugin only uses base 10). -/
def FormatUint (i : Nat) (base : Nat) : String :=
  String.mk (Nat.toDigits base i)

/-- The verb `%d` of Go's `fmt` applied to an integer. -/
def formatInt : Int → String
  | Int.ofNat n => FormatUint n 10
  | Int.negSucc n => "-" ++ FormatUint (n + 1) 10

/-- Go's `net.IPNet`: an address and a mask, as byte lists. -/
structure IPNet where
  IP : List Nat
  Mask : List Nat
deriving DecidableEq, Repr

/-- The pod record of `osdn/api` (`api.Pod`).  A Go `map[string]string` is a
finite partial function; a missing key (also on a nil map) is `none`. -/
structure Pod where
  Name : String
  Namespace : String
  ContainerID : String
  Annotations : String → Option String

/-- The constant `kapi.NamespaceAll` of the Kubernetes API package. -/
def NamespaceAll : String := ""

/-! ## Collaborators -/

/-- One interaction of the plugin with a collaborator.  `UpdatePod` records the
call `PluginStartNode` makes to the plugin's own `UpdatePod` during resync;
`Command` is one run of an external executable with its argument list. -/
inductive Call where
  | SubnetStartMaster (clusterNetwork : IPNet) (hostSubnetLength : Nat)
  | VnidStartMaster
  | SubnetStartNode (mtu : Nat)
  | VnidStartNode
  | GetLocalPods (nspace : String)
  | WaitForPodNetworkReady
  | GetPod (host nspace name : String)
  | VNIDMapRead (nspace : String)
  | UpdatePod (nspace name id : String)
  | Command (executable : String) (args : List String)
deriving DecidableEq, Repr

/-- The methods and fields of the embedded `osdn.OvsController` that the plugin
uses, over the controller's (and its environment's) state `σ`.
`VNIDMap` is the field `map[string]uint`; `Command` is
`utilexec.New().Command(cmd, args...).CombinedOutput()`. -/
structure Controller (σ : Type) where
  SubnetStartMaster : IPNet → Nat → σ → Option GoError × σ
  VnidStartMaster : σ → Option GoError × σ
  SubnetStartNode : Nat → σ → (Bool × Option GoError) × σ
  VnidStartNode : σ → Option GoError × σ
  GetLocalPods : String → σ → (List Pod × Option GoError) × σ
  WaitForPodNetworkReady : σ → Option GoError × σ
  GetPod : String → String → String → σ → (Option Pod × Option GoError) × σ
  VNIDMap : σ → String → Option Nat
  HostName : σ → String
  Command : String → List String → σ → (String × Option GoError) × σ

/-- The part of `k8s.io/kubernetes/pkg/api/resource` the plugin uses, for a
quantity type `Q`: the parser, its panicking variant and `Quantity.Value`. -/
structure Resource (Q : Type) where
  ParseQuantity : String → Except GoError Q
  MustParse : String → Q
  Value : Q → Int

/-! ## The plugin -/

/-- The plugin: `type ovsPlugin struct { osdn.OvsController; MTU uint; multitenant bool }`. -/
structure ovsPlugin (σ : Type) where
  OvsController : σ
  MTU : Nat
  multitenant : Bool

/-- What an operation leaves behind: its Go return value, the plugin after the
call and the collaborator calls it made, oldest first. -/
structure Outcome (σ : Type) (α : Type) where
  ret : α
  plugin : ovsPlugin σ
  calls : List Call

def SingleTenantPluginName : String := "redhat/openshift-ovs-subnet"

def MultiTenantPluginName : String := "redhat/openshift-ovs-multitenant"

def setUpCmd : String := "setup"
def tearDownCmd : String := "teardown"
def statusCmd : String := "status"
def updateCmd : String := "update"

def getExecutable : String := "openshift-sdn-ovs"

def ovsPlugin.Name {σ : Type} (plugin : ovsPlugin σ) : String :=
  if plugin.multitenant then MultiTenantPluginName else SingleTenantPluginName

/-- The method `getVNID`.  The conversion `uint64(vnid)` is the reduction modulo `2^64`. -/
def getVNID {σ : Type} (c : Controller σ) (plugin : ovsPlugin σ) (nspace : String) :
    Outcome σ (String × Option GoError) :=
  if plugin.multitenant then
    match c.VNIDMap plugin.OvsController nspace with
    | none =>
      ⟨("", some ⟨"Error fetching VNID for namespace: " ++ nspace⟩), plugin,
        [Call.VNIDMapRead nspace]⟩
    | some vnid =>
      ⟨(FormatUint (vnid % 2 ^ 64) 10, none), plugin, [Call.VNIDMapRead nspace]⟩
  else
    ⟨("0", none), plugin, []⟩

/-- The plugin with the controller state replaced, after a collaborator ran. -/
def ovsPlugin.setController {σ : Type} (plugin : ovsPlugin σ) (s : σ) : ovsPlugin σ :=
  { plugin with OvsController := s }

/-! ## Bandwidth annotations -/

/-- The package variable `minRsrc = resource.MustParse("1k")`. -/
def minRsrc {Q : Type} (r : Resource Q) : Q := r.MustParse "1k"

/-- The package variable `maxRsrc = resource.MustParse("1P")`. -/
def maxRsrc {Q : Type} (r : Resource Q) : Q := r.MustParse "1P"

def parseAndValidateBandwidth {Q : Type} (r : Resource Q) (value : String) :
    Int × Option GoError :=
  match r.ParseQuantity value with
  | Except.error err => (-1, some err)
  | Except.ok rsrc =>
    if r.Value rsrc < r.Value (minRsrc r) then
      (-1, some ⟨"resource value " ++ formatInt (r.Value rsrc) ++
        " is unreasonably small (< " ++ formatInt (r.Value (minRsrc r)) ++ ")"⟩)
    else if r.Value rsrc > r.Value (maxRsrc r) then
      (-1, some ⟨"resource value " ++ formatInt (r.Value rsrc) ++
        " is unreasonably large (> " ++ formatInt (r.Value (maxRsrc r)) ++ ")"⟩)
    else
      (r.Value rsrc, none)

def ingressKey : String := "kubernetes.io/ingress-bandwidth"

def egressKey : String := "kubernetes.io/egress-bandwidth"

/-- The function `extractBandwidthResources`.  Its named results `ingress` and
`egress` start at Go's zero value and keep it when the annotation is absent. -/
def extractBandwidthResources {Q : Type} (r : Resource Q) (pod : Pod) (_MTU : Nat) :
    Int × Int × Option GoError :=
  let i : Int × Option GoError :=
    match pod.Annotations ingressKey with
    | some str => parseAndValidateBandwidth r str
    | none => (0, none)
  match i.2 with
  | some err => (-1, -1, some err)
  | none =>
    let e : Int × Option GoError :=
      match pod.Annotations egressKey with
      | some str => parseAndValidateBandwidth r str
      | none => (0, none)
    match e.2 with
    | some err => (-1, -1, some err)
    | none => (i.1, e.1, none)

/-! ## Pod operations -/

/-- The argument written for a bandwidth value: `%d` when positive, else the
empty string a Go `string` variable starts with. -/
def bandwidthStr (v : Int) : String :=
  if v > 0 then formatInt v else ""

def SetUpPod {Q σ : Type} (r : Resource Q) (c : Controller σ) (plugin : ovsPlugin σ)
    (nspace name id : String) : Outcome σ (Option GoError) :=
  let w := c.WaitForPodNetworkReady plugin.OvsController
  match w.1 with
  | some err => ⟨some err, plugin.setController w.2, [Call.WaitForPodNetworkReady]⟩
  | none =>
    let host := c.HostName w.2
    let g := c.GetPod host nspace name w.2
    let plugin1 := plugin.setController g.2
    let calls1 := [Call.WaitForPodNetworkReady, Call.GetPod host nspace name]
    match g.1.2 with
    | some err => ⟨some err, plugin1, calls1⟩
    | none =>
      match g.1.1 with
      | none => ⟨some ⟨"failed to retrieve pod " ++ nspace ++ "/" ++ name⟩, plugin1, calls1⟩
      | some pod =>
        let b := extractBandwidthResources r pod plugin1.MTU
        match b.2.2 with
        | some err =>
          ⟨some ⟨"failed to parse pod " ++ nspace ++ "/" ++ name ++
            " ingress/egress quantity: " ++ err.msg⟩, plugin1, calls1⟩
        | none =>
          let ingressStr := bandwidthStr b.1
          let egressStr := bandwidthStr b.2.1
          let v := getVNID c plugin1 nspace
          match v.ret.2 with
          | some err => ⟨some err, v.plugin, calls1 ++ v.calls⟩
          | none =>
            let args := [setUpCmd, id, v.ret.1, ingressStr, egressStr,
              formatInt (Int.ofNat v.plugin.MTU)]
            let x := c.Command getExecutable args v.plugin.OvsController
            ⟨x.1.2, v.plugin.setController x.2,
              calls1 ++ v.calls ++ [Call.Command getExecutable args]⟩

def TearDownPod {σ : Type} (c : Controller σ) (plugin : ovsPlugin σ)
    (_nspace _name id : String) : Outcome σ (Option GoError) :=
  let args := [tearDownCmd, id, "-1", "-1", "-1", "-1"]
  let x := c.Command getExecutable args plugin.OvsController
  ⟨x.1.2, plugin.setController x.2, [Call.Command getExecutable args]⟩

def UpdatePod {σ : Type} (c : Controller σ) (plugin : ovsPlugin σ)
    (nspace _name id : String) : Outcome σ (Option GoError) :=
  let v := getVNID c plugin nspace
  match v.ret.2 with
  | some err => ⟨some err, v.plugin, v.calls⟩
  | none =>
    let args := [updateCmd, id, v.ret.1]
    let x := c.Command getExecutable args v.plugin.OvsController
    ⟨x.1.2, v.plugin.setController x.2, v.calls ++ [Call.Command getExecutable args]⟩

/-! ## Start-up -/

def PluginStartMaster {σ : Type} (c : Controller σ) (plugin : ovsPlugin σ)
    (clusterNetwork : IPNet) (hostSubnetLength : Nat) : Outcome σ (Option GoError) :=
  let s := c.SubnetStartMaster clusterNetwork hostSubnetLength plugin.OvsController
  let calls1 := [Call.SubnetStartMaster clusterNetwork hostSubnetLength]
  match s.1 with
  | some err => ⟨some err, plugin.setController s.2, calls1⟩
  | none =>
    if plugin.multitenant then
      let v := c.VnidStartMaster s.2
      match v.1 with
      | some err => ⟨some err, plugin.setController v.2, calls1 ++ [Call.VnidStartMaster]⟩
      | none => ⟨none, plugin.setController v.2, calls1 ++ [Call.VnidStartMaster]⟩
    else
      ⟨none, plugin.setController s.2, calls1⟩

/-- The resync loop of `PluginStartNode`: `for _, p := range pods`, calling
`UpdatePod` on each pod; a failed update is only logged. -/
def updatePods {σ : Type} (c : Controller σ) :
    ovsPlugin σ → List Pod → ovsPlugin σ × List Call
  | plugin, [] => (plugin, [])
  | plugin, p :: ps =>
    let u := UpdatePod c plugin p.Namespace p.Name p.ContainerID
    let rest := updatePods c u.plugin ps
    (rest.1, Call.UpdatePod p.Namespace p.Name p.ContainerID :: (u.calls ++ rest.2))

def PluginStartNode {σ : Type} (c : Controller σ) (plugin0 : ovsPlugin σ) (mtu : Nat) :
    Outcome σ (Option GoError) :=
  let plugin : ovsPlugin σ := { plugin0 with MTU := mtu }
  let sn := c.SubnetStartNode mtu plugin.OvsController
  let networkChanged := sn.1.1
  match sn.1.2 with
  | some err => ⟨some err, plugin.setController sn.2, [Call.SubnetStartNode mtu]⟩
  | none =>
    let vn : Option GoError × σ × List Call :=
      if plugin.multitenant then
        ((c.VnidStartNode sn.2).1, (c.VnidStartNode sn.2).2, [Call.VnidStartNode])
      else
        (none, sn.2, [])
    let calls1 := Call.SubnetStartNode mtu :: vn.2.2
    match vn.1 with
    | some err => ⟨some err, plugin.setController vn.2.1, calls1⟩
    | none =>
      if networkChanged then
        let lp := c.GetLocalPods NamespaceAll vn.2.1
        let calls2 := calls1 ++ [Call.GetLocalPods NamespaceAll]
        match lp.1.2 with
        | some err => ⟨some err, plugin.setController lp.2, calls2⟩
        | none =>
          let u := updatePods c (plugin.setController lp.2) lp.1.1
          ⟨none, u.1, calls2 ++ u.2⟩
      else
        ⟨none, plugin.setController vn.2.1, calls1⟩

def Status {σ : Type} (_plugin : ovsPlugin σ) (_nspace _name _id : String) :
    Option Unit × Option GoError :=
  (none, none)

/-! ## Reading a call list -/

/-- The runs of an external executable among the calls, in order. -/
def agentCalls : List Call → List (String × List String)
  | [] => []
  | Call.Command exe args :: cs => (exe, args) :: agentCalls cs
  | _ :: cs => agentCalls cs

/-- The resync calls to `UpdatePod` among the calls, in order, as
(namespace, name, container id) triples. -/
def updatePodCalls : List Call → List (String × String × String)
  | [] => []
  | Call.UpdatePod nspace name id :: cs => (nspace, name, id) :: updatePodCalls cs
  | _ :: cs => updatePodCalls cs

/-- The registry query of `SetUpPod`: `GetPod` for this host, asked in the
controller state the network-ready wait leaves; its result and the state after it. -/
def podLookup {σ : Type} (c : Controller σ) (plugin : ovsPlugin σ) (nspace name : String) :
    (Option Pod × Option GoError) × σ :=
  c.GetPod (c.HostName (c.WaitForPodNetworkReady plugin.OvsController).2) nspace name
    (c.WaitForPodNetworkReady plugin.OvsController).2

/-- The pod listing of `PluginStartNode`: `GetLocalPods` over all namespaces,
asked in the controller state left by subnet node-start and, in multi-tenant
mode, VNID node-start; its result and the state after it. -/
def localPods {σ : Type} (c : Controller σ) (plugin : ovsPlugin σ) (mtu : Nat) :
    (List Pod × Option GoError) × σ :=
  c.GetLocalPods NamespaceAll
    (if plugin.multitenant then
      (c.VnidStartNode (c.SubnetStartNode mtu plugin.OvsController).2).2
    else
      (c.SubnetStartNode mtu plugin.OvsController).2)

/-- One step of the resync the spec describes: `UpdatePod` is run on pod `p`
in the plugin state reached so far; the step keeps the plugin that run leaves
and appends the run, marked by its arguments, to the calls made so far.  The
error the run returns is dropped. -/
def resyncStep {σ : Type} (c : Controller σ) (acc : ovsPlugin σ × List Call) (p : Pod) :
    ovsPlugin σ × List Call :=
  ((UpdatePod c acc.1 p.Namespace p.Name p.ContainerID).plugin,
    acc.2 ++ Call.UpdatePod p.Namespace p.Name p.ContainerID ::
      (UpdatePod c acc.1 p.Namespace p.Name p.ContainerID).calls)

/-- The resync as the spec describes it: one `UpdatePod` run per listed pod,
from the first pod to the last, each run starting where the previous one
ended.  Gives the plugin after the last run and all the calls made. -/
def resyncInOrder {σ : Type} (c : Controller σ) (start : ovsPlugin σ) (pods : List Pod) :
    ovsPlugin σ × List Call :=
  pods.foldl (resyncStep c) (start, [])

/-! ## A concrete environment

A small quantity reader (decimal digits and one optional decimal SI suffix, a
fragment of the grammar of `resource.ParseQuantity`) and a controller over a
concrete state, on which the operations can be evaluated. -/

def digitValue (ch : Char) : Option Nat :=
  if ch.isDigit then some (ch.toNat - 48) else none

def readDigits : List Char → Nat → Nat × List Char
  | [], acc => (acc, [])
  | ch :: cs, acc =>
    match digitValue ch with
    | some d => readDigits cs (acc * 10 + d)
    | none => (acc, ch :: cs)

def siMultiplier : List Char → Option Nat
  | [] => some 1
  | ['k'] => some (10 ^ 3)
  | ['M'] => some (10 ^ 6)
  | ['G'] => some (10 ^ 9)
  | ['T'] => some (10 ^ 12)
  | ['P'] => some (10 ^ 15)
  | ['E'] => some (10 ^ 18)
  | _ => none

def readQuantity (s : String) : Except GoError Int :=
  match s.data with
  | [] => Except.error ⟨"quantities must match the regular expression"⟩
  | ch :: cs =>
    match digitValue ch with
    | none => Except.error ⟨"quantities must match the regular expression"⟩
    | some _ =>
      match siMultiplier (readDigits (ch :: cs) 0).2 with
      | none => Except.error ⟨"unable to parse quantity's suffix"⟩
      | some mul => Except.ok (Int.ofNat ((readDigits (ch :: cs) 0).1 * mul))

/-- The quantity library over `readQuantity`.  `MustParse` panics in Go on a
malformed string; the two strings the plugin passes to it, `1k` and `1P`, parse. -/
def decimalSI : Resource Int where
  ParseQuantity := readQuantity
  MustParse := fun s =>
    match readQuantity s with
    | Except.ok q => q
    | Except.error _ => 0
  Value := fun q => q

/-- The state of the example controller: the tenant map, the registry's pods on
this host, and the exit status each agent command gets. -/
structure Node where
  host : String
  vnids : String → Option Nat
  pods : List Pod
  networkChanged : Bool
  agentFails : List String → Bool

def findPod (pods : List Pod) (nspace name : String) : Option Pod :=
  pods.find? (fun p => p.Namespace == nspace && p.Name == name)

def nodeController : Controller Node where
  SubnetStartMaster := fun _ _ s => (none, s)
  VnidStartMaster := fun s => (none, s)
  SubnetStartNode := fun _ s => ((s.networkChanged, none), s)
  VnidStartNode := fun s => (none, s)
  GetLocalPods := fun _ s => ((s.pods, none), s)
  WaitForPodNetworkReady := fun s => (none, s)
  GetPod := fun _ nspace name s => ((findPod s.pods nspace name, none), s)
  VNIDMap := fun s => s.vnids
  HostName := fun s => s.host
  Command := fun _ args s =>
    (("", if s.agentFails args then some ⟨"exit status 1"⟩ else none), s)


/-! ## Example inputs -/

/-- A pod of namespace `proj1` that asks for `2M` of ingress bandwidth only. -/
def pod1 : Pod :=
  ⟨"p", "proj1", "cid", fun k => if k = ingressKey then some "2M" else none⟩

/-- A pod of namespace `proj2` whose egress annotation is below the minimum. -/
def pod2 : Pod :=
  ⟨"q", "proj2", "cid2",
    fun k => if k = ingressKey then some "3M" else if k = egressKey then some "5" else none⟩

/-- A pod without annotations. -/
def pod3 : Pod := ⟨"r", "proj1", "cid3", fun _ => none⟩

/-- A node whose tenant map knows `proj1` (VNID 7) only, and whose agent succeeds. -/
def node1 : Node :=
  ⟨"host", fun k => if k = "proj1" then some 7 else none, [pod1, pod2, pod3], true,
    fun _ => false⟩

/-- The same node with an agent that fails on every command. -/
def node2 : Node := { node1 with agentFails := fun _ => true }

/-- A pod whose only bandwidth annotation is ingress, holding `str`. -/
def ingressOnly (str : String) : Pod :=
  ⟨"p", "proj1", "cid", fun k => if k = ingressKey then some str else none⟩

/-- A pod whose only bandwidth annotation is egress, holding `str`. -/
def egressOnly (str : String) : Pod :=
  ⟨"p", "proj1", "cid", fun k => if k = egressKey then some str else none⟩

/-- The node `node1` with a registry that holds the one pod given. -/
def nodeWith (pod : Pod) : Node := { node1 with pods := [pod] }

/-! ## VNID resolution -/

/-- C1: in multi-tenant mode `getVNID` returns the decimal string of the tenant
map's entry for the namespace, with no error, when the namespace is a key of
the map (for every entry an unsigned machine word can hold, so for every 32-bit
entry), and returns the empty string with an error when it is not a key. -/
theorem getVNID_multitenant {σ : Type} (c : Controller σ) (plugin : ovsPlugin σ)
    (nspace : String) (hmt : plugin.multitenant = true) :
    (∀ vnid, c.VNIDMap plugin.OvsController nspace = some vnid → vnid < 2 ^ 64 →
      (getVNID c plugin nspace).ret = (Nat.repr vnid, none)) ∧
    (c.VNIDMap plugin.OvsController nspace = none →
      (getVNID c plugin nspace).ret.1 = "" ∧ (getVNID c plugin nspace).ret.2 ≠ none) := by
  refine ⟨fun vnid hv hlt => ?_, fun hv => ?_⟩
  · simp only [getVNID, hmt, hv, if_true, Nat.mod_eq_of_lt hlt]
    rfl
  · simp [getVNID, hmt, hv]

theorem getVNID_multitenant_witness :
    (getVNID nodeController ⟨node1, 1450, true⟩ "proj1").ret = ("7", none) ∧
    (getVNID nodeController ⟨node1, 1450, true⟩ "proj2").ret.1 = "" ∧
    (getVNID nodeController ⟨node1, 1450, true⟩ "proj2").ret.2 ≠ none :=
  ⟨(getVNID_multitenant nodeController ⟨node1, 1450, true⟩ "proj1" rfl).1 7
      (by decide) (by decide),
    (getVNID_multitenant nodeController ⟨node1, 1450, true⟩ "proj2" rfl).2 (by decide)⟩

/-- C2: in single-tenant mode `getVNID` returns the string "0" with no error,
for every namespace and whatever the tenant map holds; the map is not read. -/
theorem getVNID_singletenant {σ : Type} (c : Controller σ) (plugin : ovsPlugin σ)
    (nspace : String) (hst : plugin.multitenant = false) :
    (getVNID c plugin nspace).ret = ("0", none) ∧ (getVNID c plugin nspace).calls = [] := by
  simp [getVNID, hst]

theorem getVNID_singletenant_witness :
    nodeController.VNIDMap node1 "proj1" = some 7 ∧
    (getVNID nodeController ⟨node1, 1450, false⟩ "proj1").ret = ("0", none) ∧
    (getVNID nodeController ⟨node1, 1450, false⟩ "proj1").calls = [] :=
  ⟨by decide, getVNID_singletenant nodeController ⟨node1, 1450, false⟩ "proj1" rfl⟩

/-! ## Bandwidth validation -/

/-- C3: with the library's constants `1k = 1000` and `1P = 10^15`, for an
annotation string that parses as a quantity of value `v`,
`parseAndValidateBandwidth` succeeds exactly when `1000 ≤ v ≤ 10^15`, returns
`v` on success and `-1` with an error otherwise; for a string that does not
parse it returns `-1` and the parser's error. -/
theorem parseAndValidateBandwidth_range {Q : Type} (r : Resource Q) (value : String)
    (hmin : r.Value (minRsrc r) = 1000) (hmax : r.Value (maxRsrc r) = 10 ^ 15) :
    (∀ q, r.ParseQuantity value = Except.ok q →
      ((parseAndValidateBandwidth r value).2 = none ↔
        1000 ≤ r.Value q ∧ r.Value q ≤ 10 ^ 15) ∧
      ((parseAndValidateBandwidth r value).2 = none →
        (parseAndValidateBandwidth r value).1 = r.Value q) ∧
      (r.Value q < 1000 ∨ 10 ^ 15 < r.Value q →
        (parseAndValidateBandwidth r value).1 = -1 ∧
        (parseAndValidateBandwidth r value).2 ≠ none)) ∧
    (∀ err, r.ParseQuantity value = Except.error err →
      parseAndValidateBandwidth r value = (-1, some err)) := by
  refine ⟨fun q hq => ?_, fun err he => ?_⟩
  · simp only [parseAndValidateBandwidth, hq, hmin, hmax]
    split_ifs with h1 h2
    · exact ⟨⟨fun h => by simp at h, fun h => by omega⟩, fun h => by simp at h,
        fun _ => by simp⟩
    · exact ⟨⟨fun h => by simp at h, fun h => by omega⟩, fun h => by simp at h,
        fun _ => by simp⟩
    · exact ⟨⟨fun _ => by omega, fun _ => rfl⟩, fun _ => rfl,
        fun h => by exfalso; omega⟩
  · simp [parseAndValidateBandwidth, he]

theorem parseAndValidateBandwidth_range_witness :
    (decimalSI.Value (minRsrc decimalSI) = 1000 ∧
      decimalSI.Value (maxRsrc decimalSI) = 10 ^ 15) ∧
    (parseAndValidateBandwidth decimalSI "2M").2 = none ∧
    (parseAndValidateBandwidth decimalSI "2M").1 = 2000000 ∧
    (parseAndValidateBandwidth decimalSI "999").1 = -1 ∧
    (parseAndValidateBandwidth decimalSI "2E").2 ≠ none ∧
    parseAndValidateBandwidth decimalSI "fast" =
      (-1, some ⟨"quantities must match the regular expression"⟩) :=
  ⟨⟨by decide, by decide⟩,
    ((parseAndValidateBandwidth_range decimalSI "2M" (by decide) (by decide)).1
      2000000 rfl).1.2 (by decide),
    ((parseAndValidateBandwidth_range decimalSI "2M" (by decide) (by decide)).1
      2000000 rfl).2.1 (by decide),
    (((parseAndValidateBandwidth_range decimalSI "999" (by decide) (by decide)).1
      999 rfl).2.2 (Or.inl (by decide))).1,
    (((parseAndValidateBandwidth_range decimalSI "2E" (by decide) (by decide)).1
      2000000000000000000 rfl).2.2 (Or.inr (by decide))).2,
    (parseAndValidateBandwidth_range decimalSI "fast" (by decide) (by decide)).2 _ rfl⟩

/-- C4: `extractBandwidthResources` succeeds exactly when every bandwidth
annotation that is present validates.  With neither annotation it returns the
unset value (Go's zero) for ingress and egress and no error; on an error both
results are `-1`, whatever the other annotation holds; on success each result
is the validated value of its annotation, or unset when the annotation is
absent. -/
theorem extractBandwidthResources_all_or_nothing {Q : Type} (r : Resource Q) (pod : Pod)
    (MTU : Nat) :
    ((extractBandwidthResources r pod MTU).2.2 = none ↔
      (∀ s, pod.Annotations ingressKey = some s →
        (parseAndValidateBandwidth r s).2 = none) ∧
      (∀ s, pod.Annotations egressKey = some s →
        (parseAndValidateBandwidth r s).2 = none)) ∧
    (pod.Annotations ingressKey = none → pod.Annotations egressKey = none →
      extractBandwidthResources r pod MTU = (0, 0, none)) ∧
    ((extractBandwidthResources r pod MTU).2.2 ≠ none →
      (extractBandwidthResources r pod MTU).1 = -1 ∧
      (extractBandwidthResources r pod MTU).2.1 = -1) ∧
    ((extractBandwidthResources r pod MTU).2.2 = none →
      (extractBandwidthResources r pod MTU).1 =
        (match pod.Annotations ingressKey with
          | none => 0
          | some s => (parseAndValidateBandwidth r s).1) ∧
      (extractBandwidthResources r pod MTU).2.1 =
        (match pod.Annotations egressKey with
          | none => 0
          | some s => (parseAndValidateBandwidth r s).1)) := by
  cases hi : pod.Annotations ingressKey with
  | none =>
    cases he : pod.Annotations egressKey with
    | none => simp [extractBandwidthResources, hi, he]
    | some t =>
      rcases ht : parseAndValidateBandwidth r t with ⟨v, _ | e⟩ <;>
        simp [extractBandwidthResources, hi, he, ht]
  | some s =>
    rcases hs : parseAndValidateBandwidth r s with ⟨u, _ | e⟩
    · cases he : pod.Annotations egressKey with
      | none => simp [extractBandwidthResources, hi, he, hs]
      | some t =>
        rcases ht : parseAndValidateBandwidth r t with ⟨v, _ | e⟩ <;>
          simp [extractBandwidthResources, hi, he, hs, ht]
    · simp [extractBandwidthResources, hi, hs]

theorem extractBandwidthResources_all_or_nothing_witness :
    extractBandwidthResources decimalSI pod3 1450 = (0, 0, none) ∧
    extractBandwidthResources decimalSI pod1 1450 = (2000000, 0, none) ∧
    (parseAndValidateBandwidth decimalSI "3M").2 = none ∧
    (extractBandwidthResources decimalSI pod2 1450).1 = -1 ∧
    (extractBandwidthResources decimalSI pod2 1450).2.1 = -1 :=
  ⟨(extractBandwidthResources_all_or_nothing decimalSI pod3 1450).2.1 rfl rfl,
    by decide, by decide,
    (extractBandwidthResources_all_or_nothing decimalSI pod2 1450).2.2.1 (by decide)⟩

/-! ## Call lists -/

theorem agentCalls_append (xs ys : List Call) :
    agentCalls (xs ++ ys) = agentCalls xs ++ agentCalls ys := by
  induction xs with
  | nil => rfl
  | cons x xs ih => cases x <;> simp [agentCalls, ih]

theorem agentCalls_getVNID {σ : Type} (c : Controller σ) (plugin : ovsPlugin σ)
    (nspace : String) : agentCalls (getVNID c plugin nspace).calls = [] := by
  unfold getVNID
  split_ifs
  · split <;> rfl
  · rfl

theorem getVNID_plugin {σ : Type} (c : Controller σ) (plugin : ovsPlugin σ)
    (nspace : String) : (getVNID c plugin nspace).plugin = plugin := by
  unfold getVNID
  split_ifs
  · split <;> rfl
  · rfl

/-! ## `SetUpPod`, stage by stage -/

theorem SetUpPod_wait_failed {Q σ : Type} (r : Resource Q) (c : Controller σ)
    (plugin : ovsPlugin σ) (nspace name id : String) (err : GoError)
    (hw : (c.WaitForPodNetworkReady plugin.OvsController).1 = some err) :
    (SetUpPod r c plugin nspace name id).ret = some err ∧
    (SetUpPod r c plugin nspace name id).calls = [Call.WaitForPodNetworkReady] := by
  simp [SetUpPod, hw]

theorem SetUpPod_lookup_failed {Q σ : Type} (r : Resource Q) (c : Controller σ)
    (plugin : ovsPlugin σ) (nspace name id : String) (err : GoError)
    (hw : (c.WaitForPodNetworkReady plugin.OvsController).1 = none)
    (hg : (podLookup c plugin nspace name).1.2 = some err) :
    (SetUpPod r c plugin nspace name id).ret = some err ∧
    agentCalls (SetUpPod r c plugin nspace name id).calls = [] := by
  unfold podLookup at hg
  simp [SetUpPod, hw, hg, agentCalls]

theorem SetUpPod_pod_missing {Q σ : Type} (r : Resource Q) (c : Controller σ)
    (plugin : ovsPlugin σ) (nspace name id : String)
    (hw : (c.WaitForPodNetworkReady plugin.OvsController).1 = none)
    (hg : (podLookup c plugin nspace name).1.2 = none)
    (hp : (podLookup c plugin nspace name).1.1 = none) :
    (SetUpPod r c plugin nspace name id).ret =
      some ⟨"failed to retrieve pod " ++ nspace ++ "/" ++ name⟩ ∧
    agentCalls (SetUpPod r c plugin nspace name id).calls = [] := by
  unfold podLookup at hg hp
  simp [SetUpPod, hw, hg, hp, agentCalls]

theorem SetUpPod_bandwidth_failed {Q σ : Type} (r : Resource Q) (c : Controller σ)
    (plugin : ovsPlugin σ) (nspace name id : String) (pod : Pod) (err : GoError)
    (hw : (c.WaitForPodNetworkReady plugin.OvsController).1 = none)
    (hg : (podLookup c plugin nspace name).1.2 = none)
    (hp : (podLookup c plugin nspace name).1.1 = some pod)
    (hb : (extractBandwidthResources r pod plugin.MTU).2.2 = some err) :
    (SetUpPod r c plugin nspace name id).ret =
      some ⟨"failed to parse pod " ++ nspace ++ "/" ++ name ++
        " ingress/egress quantity: " ++ err.msg⟩ ∧
    agentCalls (SetUpPod r c plugin nspace name id).calls = [] := by
  unfold podLookup at hg hp
  simp [SetUpPod, hw, hg, hp, hb, agentCalls, ovsPlugin.setController]

theorem SetUpPod_vnid_failed {Q σ : Type} (r : Resource Q) (c : Controller σ)
    (plugin : ovsPlugin σ) (nspace name id : String) (pod : Pod) (err : GoError)
    (hw : (c.WaitForPodNetworkReady plugin.OvsController).1 = none)
    (hg : (podLookup c plugin nspace name).1.2 = none)
    (hp : (podLookup c plugin nspace name).1.1 = some pod)
    (hb : (extractBandwidthResources r pod plugin.MTU).2.2 = none)
    (hv : (getVNID c (plugin.setController (podLookup c plugin nspace name).2)
      nspace).ret.2 = some err) :
    (SetUpPod r c plugin nspace name id).ret = some err ∧
    agentCalls (SetUpPod r c plugin nspace name id).calls = [] := by
  unfold podLookup at hg hp hv
  simp [SetUpPod, hw, hg, hp, hb, hv, agentCalls, agentCalls_append, agentCalls_getVNID,
    ovsPlugin.setController] at *

theorem SetUpPod_reaches_agent {Q σ : Type} (r : Resource Q) (c : Controller σ)
    (plugin : ovsPlugin σ) (nspace name id : String) (pod : Pod)
    (hw : (c.WaitForPodNetworkReady plugin.OvsController).1 = none)
    (hg : (podLookup c plugin nspace name).1.2 = none)
    (hp : (podLookup c plugin nspace name).1.1 = some pod)
    (hb : (extractBandwidthResources r pod plugin.MTU).2.2 = none)
    (hv : (getVNID c (plugin.setController (podLookup c plugin nspace name).2)
      nspace).ret.2 = none) :
    (SetUpPod r c plugin nspace name id).ret =
      (c.Command getExecutable
        [setUpCmd, id,
          (getVNID c (plugin.setController (podLookup c plugin nspace name).2) nspace).ret.1,
          bandwidthStr (extractBandwidthResources r pod plugin.MTU).1,
          bandwidthStr (extractBandwidthResources r pod plugin.MTU).2.1,
          formatInt (Int.ofNat plugin.MTU)]
        (podLookup c plugin nspace name).2).1.2 ∧
    agentCalls (SetUpPod r c plugin nspace name id).calls =
      [(getExecutable,
        [setUpCmd, id,
          (getVNID c (plugin.setController (podLookup c plugin nspace name).2) nspace).ret.1,
          bandwidthStr (extractBandwidthResources r pod plugin.MTU).1,
          bandwidthStr (extractBandwidthResources r pod plugin.MTU).2.1,
          formatInt (Int.ofNat plugin.MTU)])] := by
  unfold podLookup at hg hp hv ⊢
  simp [SetUpPod, hw, hg, hp, hb, hv, agentCalls, agentCalls_append, agentCalls_getVNID,
    getVNID_plugin, ovsPlugin.setController] at *

/-! ## Bandwidth arguments of a successful extraction -/

theorem parseAndValidateBandwidth_ge_min {Q : Type} (r : Resource Q) (value : String)
    (h : (parseAndValidateBandwidth r value).2 = none) :
    r.Value (minRsrc r) ≤ (parseAndValidateBandwidth r value).1 := by
  unfold parseAndValidateBandwidth at h ⊢
  cases hq : r.ParseQuantity value with
  | error e => simp [hq] at h
  | ok q =>
    simp only [hq] at h ⊢
    split_ifs at h ⊢ with h1 h2
    show r.Value (minRsrc r) ≤ r.Value q
    omega

theorem extractBandwidthResources_values {Q : Type} (r : Resource Q) (pod : Pod) (MTU : Nat)
    (h : (extractBandwidthResources r pod MTU).2.2 = none) :
    ((extractBandwidthResources r pod MTU).1 =
        (match pod.Annotations ingressKey with
          | none => 0
          | some s => (parseAndValidateBandwidth r s).1) ∧
      (extractBandwidthResources r pod MTU).2.1 =
        (match pod.Annotations egressKey with
          | none => 0
          | some s => (parseAndValidateBandwidth r s).1)) ∧
    (∀ s, pod.Annotations ingressKey = some s → (parseAndValidateBandwidth r s).2 = none) ∧
    (∀ s, pod.Annotations egressKey = some s → (parseAndValidateBandwidth r s).2 = none) := by
  revert h
  cases hi : pod.Annotations ingressKey with
  | none =>
    cases he : pod.Annotations egressKey with
    | none => simp [extractBandwidthResources, hi, he]
    | some t =>
      rcases ht : parseAndValidateBandwidth r t with ⟨v, _ | e⟩ <;>
        simp [extractBandwidthResources, hi, he, ht]
  | some s =>
    rcases hs : parseAndValidateBandwidth r s with ⟨u, _ | e⟩
    · cases he : pod.Annotations egressKey with
      | none => simp [extractBandwidthResources, hi, he, hs]
      | some t =>
        rcases ht : parseAndValidateBandwidth r t with ⟨v, _ | e⟩ <;>
          simp [extractBandwidthResources, hi, he, hs, ht]
    · simp [extractBandwidthResources, hi, hs]

/-- The text `SetUpPod` passes for one bandwidth annotation of a pod: the
validated value in decimal, or the empty string when the annotation is absent. -/
theorem bandwidthStr_of_annotation {Q : Type} (r : Resource Q) (a : Option String)
    (hmin : 0 < r.Value (minRsrc r)) :
    (∀ s, a = some s → (parseAndValidateBandwidth r s).2 = none) →
    bandwidthStr (match a with
      | none => 0
      | some s => (parseAndValidateBandwidth r s).1) =
    (match a with
      | none => ""
      | some s => formatInt (parseAndValidateBandwidth r s).1) := by
  intro hval
  cases a with
  | none => simp [bandwidthStr]
  | some s =>
    have h := parseAndValidateBandwidth_ge_min r s (hval s rfl)
    have hpos : (parseAndValidateBandwidth r s).1 > 0 := by omega
    simp [bandwidthStr, hpos]

/-! ## The pod operations -/

/-- C5: when the network-ready wait fails, or the registry lookup fails or
returns no pod, or bandwidth extraction fails on the pod found, or VNID
resolution fails, `SetUpPod` returns an error and runs the agent zero times. -/
theorem SetUpPod_failure_skips_agent {Q σ : Type} (r : Resource Q) (c : Controller σ)
    (plugin : ovsPlugin σ) (nspace name id : String)
    (h : (c.WaitForPodNetworkReady plugin.OvsController).1 ≠ none ∨
      (podLookup c plugin nspace name).1.2 ≠ none ∨
      (podLookup c plugin nspace name).1.1 = none ∨
      (∃ pod, (podLookup c plugin nspace name).1.1 = some pod ∧
        (extractBandwidthResources r pod plugin.MTU).2.2 ≠ none) ∨
      (getVNID c (plugin.setController (podLookup c plugin nspace name).2)
        nspace).ret.2 ≠ none) :
    (SetUpPod r c plugin nspace name id).ret ≠ none ∧
    agentCalls (SetUpPod r c plugin nspace name id).calls = [] := by
  rcases hw : (c.WaitForPodNetworkReady plugin.OvsController).1 with _ | e
  swap
  · have k := SetUpPod_wait_failed r c plugin nspace name id e hw
    exact ⟨by simp [k.1], by simp [k.2, agentCalls]⟩
  rcases hg : (podLookup c plugin nspace name).1.2 with _ | e
  swap
  · have k := SetUpPod_lookup_failed r c plugin nspace name id e hw hg
    exact ⟨by simp [k.1], k.2⟩
  rcases hp : (podLookup c plugin nspace name).1.1 with _ | pod
  · have k := SetUpPod_pod_missing r c plugin nspace name id hw hg hp
    exact ⟨by simp [k.1], k.2⟩
  rcases hb : (extractBandwidthResources r pod plugin.MTU).2.2 with _ | e
  swap
  · have k := SetUpPod_bandwidth_failed r c plugin nspace name id pod e hw hg hp hb
    exact ⟨by simp [k.1], k.2⟩
  rcases hv : (getVNID c (plugin.setController (podLookup c plugin nspace name).2)
    nspace).ret.2 with _ | e
  swap
  · have k := SetUpPod_vnid_failed r c plugin nspace name id pod e hw hg hp hb hv
    exact ⟨by simp [k.1], k.2⟩
  exfalso
  rcases h with h | h | h | ⟨pod2, hp2, hb2⟩ | h
  · exact h hw
  · exact h hg
  · simp [hp] at h
  · rw [hp] at hp2
    cases hp2
    exact hb2 hb
  · exact h hv

/-- A pod that the registry does not hold (`proj9/ghost`), and a pod whose
egress annotation is out of range (`proj2/q`): both calls fail before the agent. -/
theorem SetUpPod_failure_skips_agent_witness :
    ((podLookup nodeController ⟨node1, 1450, true⟩ "proj9" "ghost").1.1 = none ∧
      (SetUpPod decimalSI nodeController ⟨node1, 1450, true⟩ "proj9" "ghost" "c9").ret ≠ none ∧
      agentCalls
        (SetUpPod decimalSI nodeController ⟨node1, 1450, true⟩ "proj9" "ghost" "c9").calls
        = []) ∧
    ((extractBandwidthResources decimalSI pod2 1450).2.2 ≠ none ∧
      (SetUpPod decimalSI nodeController ⟨node1, 1450, false⟩ "proj2" "q" "cid2").ret ≠ none ∧
      agentCalls
        (SetUpPod decimalSI nodeController ⟨node1, 1450, false⟩ "proj2" "q" "cid2").calls
        = []) :=
  ⟨⟨rfl,
      SetUpPod_failure_skips_agent decimalSI nodeController ⟨node1, 1450, true⟩
        "proj9" "ghost" "c9" (Or.inr (Or.inr (Or.inl rfl)))⟩,
    ⟨by decide,
      SetUpPod_failure_skips_agent decimalSI nodeController ⟨node1, 1450, false⟩
        "proj2" "q" "cid2"
        (Or.inr (Or.inr (Or.inr (Or.inl ⟨pod2, rfl, by decide⟩))))⟩⟩

/-- C6: when the network-ready wait, the registry lookup, bandwidth extraction
and VNID resolution all succeed (the library's minimum `1k` being positive),
`SetUpPod` runs the agent exactly once, with command `setup` and five
arguments in this order: the container id, the resolved VNID, the validated
ingress value in decimal or the empty string when the annotation is absent,
the egress value by the same rule, and the MTU in decimal; and it returns
exactly the agent's result. -/
theorem SetUpPod_invokes_setup {Q σ : Type} (r : Resource Q) (c : Controller σ)
    (plugin : ovsPlugin σ) (nspace name id : String) (pod : Pod)
    (hmin : 0 < r.Value (minRsrc r))
    (hw : (c.WaitForPodNetworkReady plugin.OvsController).1 = none)
    (hg : (podLookup c plugin nspace name).1.2 = none)
    (hp : (podLookup c plugin nspace name).1.1 = some pod)
    (hb : (extractBandwidthResources r pod plugin.MTU).2.2 = none)
    (hv : (getVNID c (plugin.setController (podLookup c plugin nspace name).2)
      nspace).ret.2 = none) :
    agentCalls (SetUpPod r c plugin nspace name id).calls =
      [("openshift-sdn-ovs",
        ["setup", id,
          (getVNID c (plugin.setController (podLookup c plugin nspace name).2) nspace).ret.1,
          (match pod.Annotations ingressKey with
            | none => ""
            | some s => formatInt (parseAndValidateBandwidth r s).1),
          (match pod.Annotations egressKey with
            | none => ""
            | some s => formatInt (parseAndValidateBandwidth r s).1),
          Nat.repr plugin.MTU])] ∧
    (SetUpPod r c plugin nspace name id).ret =
      (c.Command "openshift-sdn-ovs"
        ["setup", id,
          (getVNID c (plugin.setController (podLookup c plugin nspace name).2) nspace).ret.1,
          (match pod.Annotations ingressKey with
            | none => ""
            | some s => formatInt (parseAndValidateBandwidth r s).1),
          (match pod.Annotations egressKey with
            | none => ""
            | some s => formatInt (parseAndValidateBandwidth r s).1),
          Nat.repr plugin.MTU]
        (podLookup c plugin nspace name).2).1.2 := by
  have k := SetUpPod_reaches_agent r c plugin nspace name id pod hw hg hp hb hv
  have e := extractBandwidthResources_values r pod plugin.MTU hb
  have hi := bandwidthStr_of_annotation r (pod.Annotations ingressKey) hmin e.2.1
  have he := bandwidthStr_of_annotation r (pod.Annotations egressKey) hmin e.2.2
  rw [← e.1.1] at hi
  rw [← e.1.2] at he
  rw [hi, he] at k
  exact ⟨k.2, k.1⟩

/-- The scenario: single-tenant, ingress annotation `2M`, no egress annotation,
MTU 1450. -/
theorem SetUpPod_invokes_setup_witness :
    agentCalls (SetUpPod decimalSI nodeController ⟨node1, 1450, false⟩ "proj1" "p" "cid").calls
      = [("openshift-sdn-ovs", ["setup", "cid", "0", "2000000", "", "1450"])] ∧
    (SetUpPod decimalSI nodeController ⟨node1, 1450, false⟩ "proj1" "p" "cid").ret = none :=
  SetUpPod_invokes_setup decimalSI nodeController ⟨node1, 1450, false⟩ "proj1" "p" "cid" pod1
    (by decide) rfl rfl rfl (by decide) (by decide)

/-- C7 as stated (a `teardown` command line with three `-1` sentinels) fails:
for namespace `proj1` with VNID 7 in multi-tenant mode, the agent is not run as
`teardown cid -1 -1 -1`. -/
theorem TearDownPod_three_sentinels_refuted :
    agentCalls (TearDownPod nodeController ⟨node1, 1450, true⟩ "proj1" "p" "cid").calls ≠
      [("openshift-sdn-ovs", ["teardown", "cid", "-1", "-1", "-1"])] := by
  decide

/-- C7, amended: for every plugin mode, tenant map, registry state, namespace,
pod name and container id, `TearDownPod` makes exactly one collaborator call,
the agent run `teardown <id> -1 -1 -1 -1` (the container id and four `-1`
sentinels); it consults neither the registry nor the tenant map, and returns
exactly the agent's result. -/
theorem TearDownPod_invokes_teardown {σ : Type} (c : Controller σ) (plugin : ovsPlugin σ)
    (nspace name id : String) :
    (TearDownPod c plugin nspace name id).calls =
      [Call.Command "openshift-sdn-ovs" ["teardown", id, "-1", "-1", "-1", "-1"]] ∧
    (TearDownPod c plugin nspace name id).ret =
      (c.Command "openshift-sdn-ovs" ["teardown", id, "-1", "-1", "-1", "-1"]
        plugin.OvsController).1.2 :=
  ⟨rfl, rfl⟩

/-- The scenario: multi-tenant, namespace `proj1` mapped to VNID 7. -/
theorem TearDownPod_invokes_teardown_witness :
    nodeController.VNIDMap node1 "proj1" = some 7 ∧
    agentCalls (TearDownPod nodeController ⟨node1, 1450, true⟩ "proj1" "p" "cid").calls =
      [("openshift-sdn-ovs", ["teardown", "cid", "-1", "-1", "-1", "-1"])] ∧
    (TearDownPod nodeController ⟨node1, 1450, true⟩ "proj1" "p" "cid").ret = none := by
  have h := TearDownPod_invokes_teardown nodeController ⟨node1, 1450, true⟩ "proj1" "p" "cid"
  refine ⟨by decide, ?_, ?_⟩
  · rw [h.1]
    rfl
  · rw [h.2]
    rfl

/-- C10: `UpdatePod` fails VNID resolution exactly in multi-tenant mode with no
tenant-map entry for the namespace; it then returns that error and runs the
agent zero times.  Otherwise it runs the agent exactly once, with command
`update` and two arguments, the container id and the resolved VNID, and
returns exactly the agent's result. -/
theorem UpdatePod_invokes_update {σ : Type} (c : Controller σ) (plugin : ovsPlugin σ)
    (nspace name id : String) :
    ((getVNID c plugin nspace).ret.2 ≠ none ↔
      plugin.multitenant = true ∧ c.VNIDMap plugin.OvsController nspace = none) ∧
    (∀ err, (getVNID c plugin nspace).ret.2 = some err →
      (UpdatePod c plugin nspace name id).ret = some err ∧
      agentCalls (UpdatePod c plugin nspace name id).calls = []) ∧
    ((getVNID c plugin nspace).ret.2 = none →
      agentCalls (UpdatePod c plugin nspace name id).calls =
        [("openshift-sdn-ovs", ["update", id, (getVNID c plugin nspace).ret.1])] ∧
      (UpdatePod c plugin nspace name id).ret =
        (c.Command "openshift-sdn-ovs" ["update", id, (getVNID c plugin nspace).ret.1]
          plugin.OvsController).1.2) := by
  refine ⟨?_, fun err hv => ?_, fun hv => ?_⟩
  · unfold getVNID
    cases hm : plugin.multitenant
    · simp
    · cases hk : c.VNIDMap plugin.OvsController nspace <;> simp
  · simp [UpdatePod, hv, agentCalls_getVNID]
  · simp [UpdatePod, hv, agentCalls_append, agentCalls_getVNID, agentCalls, getVNID_plugin,
      getExecutable, updateCmd]

theorem UpdatePod_invokes_update_witness :
    (agentCalls (UpdatePod nodeController ⟨node1, 1450, true⟩ "proj1" "p" "cid").calls =
        [("openshift-sdn-ovs", ["update", "cid", "7"])] ∧
      (UpdatePod nodeController ⟨node1, 1450, true⟩ "proj1" "p" "cid").ret = none) ∧
    ((UpdatePod nodeController ⟨node1, 1450, true⟩ "proj2" "q" "cid2").ret =
        some ⟨"Error fetching VNID for namespace: proj2"⟩ ∧
      agentCalls (UpdatePod nodeController ⟨node1, 1450, true⟩ "proj2" "q" "cid2").calls = []) :=
  ⟨(UpdatePod_invokes_update nodeController ⟨node1, 1450, true⟩ "proj1" "p" "cid").2.2
      (by decide),
    (UpdatePod_invokes_update nodeController ⟨node1, 1450, true⟩ "proj2" "q" "cid2").2.1
      _ rfl⟩

/-! ## Start-up sequences -/

/-- C9: `PluginStartMaster` runs subnet master-start first; it runs VNID
master-start exactly when the plugin is multi-tenant and subnet master-start
succeeded; it returns the first collaborator error unchanged, and returns no
error exactly when every collaborator it ran succeeded. -/
theorem PluginStartMaster_sequence {σ : Type} (c : Controller σ) (plugin : ovsPlugin σ)
    (clusterNetwork : IPNet) (hostSubnetLength : Nat) :
    (PluginStartMaster c plugin clusterNetwork hostSubnetLength).calls =
      Call.SubnetStartMaster clusterNetwork hostSubnetLength ::
        (if plugin.multitenant = true ∧
            (c.SubnetStartMaster clusterNetwork hostSubnetLength plugin.OvsController).1 = none
          then [Call.VnidStartMaster] else []) ∧
    (∀ err,
      (c.SubnetStartMaster clusterNetwork hostSubnetLength plugin.OvsController).1 = some err →
      (PluginStartMaster c plugin clusterNetwork hostSubnetLength).ret = some err) ∧
    ((c.SubnetStartMaster clusterNetwork hostSubnetLength plugin.OvsController).1 = none →
      plugin.multitenant = true →
      (PluginStartMaster c plugin clusterNetwork hostSubnetLength).ret =
        (c.VnidStartMaster
          (c.SubnetStartMaster clusterNetwork hostSubnetLength plugin.OvsController).2).1) ∧
    ((PluginStartMaster c plugin clusterNetwork hostSubnetLength).ret = none ↔
      (c.SubnetStartMaster clusterNetwork hostSubnetLength plugin.OvsController).1 = none ∧
      (plugin.multitenant = true →
        (c.VnidStartMaster
          (c.SubnetStartMaster clusterNetwork hostSubnetLength plugin.OvsController).2).1
          = none)) := by
  cases hs : (c.SubnetStartMaster clusterNetwork hostSubnetLength plugin.OvsController).1 with
  | some e => simp [PluginStartMaster, hs]
  | none =>
    cases hm : plugin.multitenant with
    | false => simp [PluginStartMaster, hs, hm]
    | true =>
      cases hv : (c.VnidStartMaster
        (c.SubnetStartMaster clusterNetwork hostSubnetLength plugin.OvsController).2).1 <;>
        simp [PluginStartMaster, hs, hm, hv]

theorem updatePodCalls_append (xs ys : List Call) :
    updatePodCalls (xs ++ ys) = updatePodCalls xs ++ updatePodCalls ys := by
  induction xs with
  | nil => rfl
  | cons x xs ih => cases x <;> simp [updatePodCalls, ih]

theorem updatePodCalls_getVNID {σ : Type} (c : Controller σ) (plugin : ovsPlugin σ)
    (nspace : String) : updatePodCalls (getVNID c plugin nspace).calls = [] := by
  unfold getVNID
  split_ifs
  · split <;> rfl
  · rfl

theorem updatePodCalls_UpdatePod {σ : Type} (c : Controller σ) (plugin : ovsPlugin σ)
    (nspace name id : String) :
    updatePodCalls (UpdatePod c plugin nspace name id).calls = [] := by
  unfold UpdatePod
  cases hv : (getVNID c plugin nspace).ret.2 with
  | some e => simp [hv, updatePodCalls_getVNID]
  | none => simp [hv, updatePodCalls_append, updatePodCalls_getVNID, updatePodCalls]

/-- The resync loop calls `UpdatePod` once for each pod of the list, in order. -/
theorem updatePodCalls_updatePods {σ : Type} (c : Controller σ) (pods : List Pod) :
    ∀ plugin : ovsPlugin σ,
      updatePodCalls (updatePods c plugin pods).2 =
        pods.map (fun p => (p.Namespace, p.Name, p.ContainerID)) := by
  induction pods with
  | nil => intro plugin; rfl
  | cons p ps ih =>
    intro plugin
    simp [updatePods, updatePodCalls, updatePodCalls_append, updatePodCalls_UpdatePod, ih]

theorem foldl_resyncStep {σ : Type} (c : Controller σ) (pods : List Pod) :
    ∀ (st : ovsPlugin σ) (acc : List Call),
      pods.foldl (resyncStep c) (st, acc) =
        ((updatePods c st pods).1, acc ++ (updatePods c st pods).2) := by
  induction pods with
  | nil => intro st acc; simp [updatePods]
  | cons p ps ih =>
    intro st acc
    simp [List.foldl, resyncStep, ih, updatePods, List.append_assoc]

/-- The loop of the code is the in-order resync: same final plugin, same calls. -/
theorem updatePods_eq_resyncInOrder {σ : Type} (c : Controller σ) (st : ovsPlugin σ)
    (pods : List Pod) : updatePods c st pods = resyncInOrder c st pods := by
  unfold resyncInOrder
  rw [foldl_resyncStep]
  simp

theorem UpdatePod_multitenant {σ : Type} (c : Controller σ) (plugin : ovsPlugin σ)
    (nspace name id : String) :
    (UpdatePod c plugin nspace name id).plugin.multitenant = plugin.multitenant := by
  unfold UpdatePod
  cases hv : (getVNID c plugin nspace).ret.2 <;>
    simp [hv, getVNID_plugin, ovsPlugin.setController]

/-- Single-tenant resync: the agent is run once per pod, in order, as
`update <container id> 0`. -/
theorem agentCalls_updatePods_singletenant {σ : Type} (c : Controller σ) (pods : List Pod) :
    ∀ st : ovsPlugin σ, st.multitenant = false →
      agentCalls (updatePods c st pods).2 =
        pods.map (fun p => ("openshift-sdn-ovs", ["update", p.ContainerID, "0"])) := by
  induction pods with
  | nil => intro st _; rfl
  | cons p ps ih =>
    intro st hst
    have hnext : (UpdatePod c st p.Namespace p.Name p.ContainerID).plugin.multitenant = false := by
      rw [UpdatePod_multitenant, hst]
    have hrun : agentCalls (UpdatePod c st p.Namespace p.Name p.ContainerID).calls =
        [("openshift-sdn-ovs", ["update", p.ContainerID, "0"])] := by
      simp [UpdatePod, getVNID, hst, agentCalls, getExecutable, updateCmd]
    simp [updatePods, agentCalls, agentCalls_append, hrun, ih _ hnext]

/-- C8: when subnet node-start succeeds, and VNID node-start succeeds in
multi-tenant mode, and the pod listing succeeds when the change flag is true,
`PluginStartNode` returns no error; with the flag true it calls `UpdatePod`
exactly once per listed pod, in list order, with that pod's namespace, name
and container id, and with the flag false it calls `UpdatePod` zero times.
The calls are real runs: with the flag true the calls of `PluginStartNode`
after the pod listing, and the plugin it leaves, are those of running
`UpdatePod` on each listed pod in turn (in single-tenant mode the agent runs
are `update <container id> 0`, one per pod); with the flag false nothing is
called after node-start.  The agent and the tenant map are arbitrary, so
neither the count nor the result depends on whether an individual `UpdatePod`
call fails. -/
theorem PluginStartNode_resync {σ : Type} (c : Controller σ) (plugin : ovsPlugin σ)
    (mtu : Nat)
    (hs : (c.SubnetStartNode mtu plugin.OvsController).1.2 = none)
    (hv : plugin.multitenant = true →
      (c.VnidStartNode (c.SubnetStartNode mtu plugin.OvsController).2).1 = none)
    (hl : (c.SubnetStartNode mtu plugin.OvsController).1.1 = true →
      (localPods c plugin mtu).1.2 = none) :
    (PluginStartNode c plugin mtu).ret = none ∧
    updatePodCalls (PluginStartNode c plugin mtu).calls =
      (if (c.SubnetStartNode mtu plugin.OvsController).1.1 then
        (localPods c plugin mtu).1.1.map (fun p => (p.Namespace, p.Name, p.ContainerID))
      else []) ∧
    ((c.SubnetStartNode mtu plugin.OvsController).1.1 = true →
      (PluginStartNode c plugin mtu).calls =
        Call.SubnetStartNode mtu ::
          ((if plugin.multitenant then [Call.VnidStartNode] else []) ++
            Call.GetLocalPods NamespaceAll ::
              (resyncInOrder c ⟨(localPods c plugin mtu).2, mtu, plugin.multitenant⟩
                (localPods c plugin mtu).1.1).2) ∧
      (PluginStartNode c plugin mtu).plugin =
        (resyncInOrder c ⟨(localPods c plugin mtu).2, mtu, plugin.multitenant⟩
          (localPods c plugin mtu).1.1).1) ∧
    ((c.SubnetStartNode mtu plugin.OvsController).1.1 = true → plugin.multitenant = false →
      agentCalls (PluginStartNode c plugin mtu).calls =
        (localPods c plugin mtu).1.1.map
          (fun p => ("openshift-sdn-ovs", ["update", p.ContainerID, "0"]))) ∧
    ((c.SubnetStartNode mtu plugin.OvsController).1.1 = false →
      (PluginStartNode c plugin mtu).calls =
        Call.SubnetStartNode mtu :: (if plugin.multitenant then [Call.VnidStartNode] else [])) := by
  unfold localPods at hl ⊢
  cases hm : plugin.multitenant with
  | false =>
    cases hc : (c.SubnetStartNode mtu plugin.OvsController).1.1 with
    | false => simp [PluginStartNode, hs, hm, hc, updatePodCalls]
    | true =>
      have hl2 := hl hc
      simp only [hm, Bool.false_eq_true, if_false] at hl2
      simp [PluginStartNode, hs, hm, hc, hl2, updatePodCalls, updatePodCalls_append,
        updatePodCalls_updatePods, agentCalls, agentCalls_append,
        agentCalls_updatePods_singletenant, ← updatePods_eq_resyncInOrder,
        ovsPlugin.setController]
  | true =>
    have hv2 := hv hm
    cases hc : (c.SubnetStartNode mtu plugin.OvsController).1.1 with
    | false => simp [PluginStartNode, hs, hm, hc, hv2, updatePodCalls]
    | true =>
      have hl2 := hl hc
      simp only [hm, if_true] at hl2
      simp [PluginStartNode, hs, hm, hc, hv2, hl2, updatePodCalls, updatePodCalls_append,
        updatePodCalls_updatePods, ← updatePods_eq_resyncInOrder, ovsPlugin.setController]

/-- Resync on a node whose agent fails on every command and whose tenant map
misses `proj2`: every `UpdatePod` call fails, each pod still gets its call,
and the calls of the three runs are all there, in order. -/
theorem PluginStartNode_resync_witness :
    ((UpdatePod nodeController ⟨node2, 1450, true⟩ "proj1" "p" "cid").ret ≠ none ∧
      (UpdatePod nodeController ⟨node2, 1450, true⟩ "proj2" "q" "cid2").ret ≠ none) ∧
    (PluginStartNode nodeController ⟨node2, 0, true⟩ 1450).ret = none ∧
    updatePodCalls (PluginStartNode nodeController ⟨node2, 0, true⟩ 1450).calls =
      [("proj1", "p", "cid"), ("proj2", "q", "cid2"), ("proj1", "r", "cid3")] ∧
    (PluginStartNode nodeController ⟨node2, 0, true⟩ 1450).calls =
      [Call.SubnetStartNode 1450, Call.VnidStartNode, Call.GetLocalPods "",
        Call.UpdatePod "proj1" "p" "cid", Call.VNIDMapRead "proj1",
        Call.Command "openshift-sdn-ovs" ["update", "cid", "7"],
        Call.UpdatePod "proj2" "q" "cid2", Call.VNIDMapRead "proj2",
        Call.UpdatePod "proj1" "r" "cid3", Call.VNIDMapRead "proj1",
        Call.Command "openshift-sdn-ovs" ["update", "cid3", "7"]] :=
  have h := PluginStartNode_resync nodeController ⟨node2, 0, true⟩ 1450 rfl (fun _ => rfl)
    (fun _ => rfl)
  ⟨⟨by decide, by decide⟩, h.1, h.2.1, (h.2.2.1 rfl).1⟩

/-! ## The error of a failed bandwidth extraction -/

/-- C11 as stated (the error identifies the failing field) fails: for the
out-of-range value `5`, and for the unparsable value `fast`, extraction does
fail, and the error for a pod with only the ingress annotation is the same as
for a pod with only the egress annotation, from `extractBandwidthResources`
and from `SetUpPod`. -/
theorem bandwidth_error_field_refuted :
    ((extractBandwidthResources decimalSI (ingressOnly "5") 1450).2.2 ≠ none ∧
      (extractBandwidthResources decimalSI (ingressOnly "5") 1450).2.2 =
        (extractBandwidthResources decimalSI (egressOnly "5") 1450).2.2 ∧
      (SetUpPod decimalSI nodeController ⟨nodeWith (ingressOnly "5"), 1450, false⟩
          "proj1" "p" "cid").ret =
        (SetUpPod decimalSI nodeController ⟨nodeWith (egressOnly "5"), 1450, false⟩
          "proj1" "p" "cid").ret) ∧
    ((extractBandwidthResources decimalSI (ingressOnly "fast") 1450).2.2 ≠ none ∧
      (extractBandwidthResources decimalSI (ingressOnly "fast") 1450).2.2 =
        (extractBandwidthResources decimalSI (egressOnly "fast") 1450).2.2 ∧
      (SetUpPod decimalSI nodeController ⟨nodeWith (ingressOnly "fast"), 1450, false⟩
          "proj1" "p" "cid").ret =
        (SetUpPod decimalSI nodeController ⟨nodeWith (egressOnly "fast"), 1450, false⟩
          "proj1" "p" "cid").ret) := by
  decide

/-- C11, amended: when a present annotation is out of range or unparsable, the
error of the extraction is the error `parseAndValidateBandwidth` gives for the
value, whichever field holds it.  For every invalid value `s`, a pod whose only
bandwidth annotation is ingress = `s` and a pod whose only bandwidth annotation
is egress = `s` get the same result `(-1, -1, err)` from
`extractBandwidthResources`, and `SetUpPod` wraps that error for both in the
same message, which names the pod and the text `ingress/egress quantity`. -/
theorem bandwidth_error_same_for_both_fields {Q σ : Type} (r : Resource Q) (s : String)
    (err : GoError) (podI podE : Pod)
    (hs : (parseAndValidateBandwidth r s).2 = some err)
    (hIi : podI.Annotations ingressKey = some s) (_hIe : podI.Annotations egressKey = none)
    (hEi : podE.Annotations ingressKey = none) (hEe : podE.Annotations egressKey = some s) :
    (∀ MTU, extractBandwidthResources r podI MTU = (-1, -1, some err) ∧
      extractBandwidthResources r podE MTU = (-1, -1, some err)) ∧
    (∀ (c : Controller σ) (pluginI pluginE : ovsPlugin σ) (nspace name id : String),
      (c.WaitForPodNetworkReady pluginI.OvsController).1 = none →
      (c.WaitForPodNetworkReady pluginE.OvsController).1 = none →
      (podLookup c pluginI nspace name).1 = (some podI, none) →
      (podLookup c pluginE nspace name).1 = (some podE, none) →
      (SetUpPod r c pluginI nspace name id).ret =
        some ⟨"failed to parse pod " ++ nspace ++ "/" ++ name ++
          " ingress/egress quantity: " ++ err.msg⟩ ∧
      (SetUpPod r c pluginE nspace name id).ret =
        (SetUpPod r c pluginI nspace name id).ret) := by
  have hI : ∀ MTU, extractBandwidthResources r podI MTU = (-1, -1, some err) := by
    intro MTU
    simp [extractBandwidthResources, hIi, hs]
  have hE : ∀ MTU, extractBandwidthResources r podE MTU = (-1, -1, some err) := by
    intro MTU
    simp [extractBandwidthResources, hEi, hEe, hs]
  refine ⟨fun MTU => ⟨hI MTU, hE MTU⟩, ?_⟩
  intro c pluginI pluginE nspace name id hwI hwE hlI hlE
  have kI := SetUpPod_bandwidth_failed r c pluginI nspace name id podI err hwI
    (by rw [hlI]) (by rw [hlI]) (by rw [hI])
  have kE := SetUpPod_bandwidth_failed r c pluginE nspace name id podE err hwE
    (by rw [hlE]) (by rw [hlE]) (by rw [hE])
  exact ⟨kI.1, by rw [kE.1, kI.1]⟩

/-- The value `5`, below the minimum, once as the ingress and once as the
egress annotation of pod `proj1/p`. -/
theorem bandwidth_error_same_for_both_fields_witness :
    (parseAndValidateBandwidth decimalSI "5").2 =
      some ⟨"resource value 5 is unreasonably small (< 1000)"⟩ ∧
    (extractBandwidthResources decimalSI (ingressOnly "5") 1450 =
        (-1, -1, some ⟨"resource value 5 is unreasonably small (< 1000)"⟩) ∧
      extractBandwidthResources decimalSI (egressOnly "5") 1450 =
        (-1, -1, some ⟨"resource value 5 is unreasonably small (< 1000)"⟩)) ∧
    (SetUpPod decimalSI nodeController ⟨nodeWith (ingressOnly "5"), 1450, false⟩
        "proj1" "p" "cid").ret =
      some ⟨"failed to parse pod proj1/p ingress/egress quantity: " ++
        "resource value 5 is unreasonably small (< 1000)"⟩ ∧
    (SetUpPod decimalSI nodeController ⟨nodeWith (egressOnly "5"), 1450, false⟩
        "proj1" "p" "cid").ret =
      (SetUpPod decimalSI nodeController ⟨nodeWith (ingressOnly "5"), 1450, false⟩
        "proj1" "p" "cid").ret :=
  have h := bandwidth_error_same_for_both_fields decimalSI "5"
    ⟨"resource value 5 is unreasonably small (< 1000)"⟩ (ingressOnly "5") (egressOnly "5")
    (by decide) rfl rfl rfl rfl
  ⟨by decide, h.1 1450,
    h.2 nodeController ⟨nodeWith (ingressOnly "5"), 1450, false⟩
      ⟨nodeWith (egressOnly "5"), 1450, false⟩ "proj1" "p" "cid" rfl rfl rfl rfl⟩

end ovs
